import Mathlib

/-!
Verification of the stsh job-control shell (src/stsh.cc) against its
natural-language specification.

The embedding translates the shell's data model and the operations the
claims are about. Pure decision logic (builtin argument handling, the
job-table update in the SIGCHLD handler, the pipe/fork/redirect structure
of `createJob`) is embedded as executable Lean functions; OS effects
(kill, tcsetpgrp, pipe2, open, dup2, exec) are recorded in trace records
so theorems can speak about which calls are made and with which arguments.
The job-table container itself (stsh-job-list.h / stsh-job.h /
stsh-process.h) is not part of src/, so its operations are modelled from
the spec, as marked on each such definition.
-/

namespace Stsh

/-! ## Signal numbers and open(2) flags (Linux values) -/

def SIGINT : Int := 2
def SIGQUIT : Int := 3
def SIGKILL : Int := 9
def SIGCHLD : Int := 17
def SIGCONT : Int := 18
def SIGSTOP : Int := 19
def SIGTSTP : Int := 20

def O_RDONLY : Nat := 0
def O_RDWR : Nat := 2
def O_CREAT : Nat := 64
def O_TRUNC : Nat := 512

/-! ## C `atoi` on a string

Both builtin handlers parse their arguments with `atoi` (src/stsh.cc:50,
82-87): skip leading whitespace, an optional sign, then the longest run
of leading digits; any remaining characters are ignored; no digits gives 0. -/

def atoiDigits : List Char → Int → Int
  | [], acc => acc
  | c :: cs, acc =>
    if c.isDigit then atoiDigits cs (acc * 10 + ((c.toNat : Int) - 48)) else acc

def atoiSigned : List Char → Int
  | '-' :: cs => - atoiDigits cs 0
  | '+' :: cs => atoiDigits cs 0
  | cs => atoiDigits cs 0

def atoiSkipWs : List Char → List Char
  | [] => []
  | c :: cs =>
    if c = ' ' ∨ c = '\t' ∨ c = '\n' ∨ c = '\r' then atoiSkipWs cs else c :: cs

def atoi (s : String) : Int := atoiSigned (atoiSkipWs s.data)

/-! ## Data model (spec section 3; stsh-job.h / stsh-process.h are not in src) -/

inductive STSHProcessState where
  | kRunning
  | kStopped
  | kTerminated
deriving DecidableEq, Repr

inductive STSHJobState where
  | kForeground
  | kBackground
deriving DecidableEq, Repr

/-- A parsed command: program name plus argument tokens (stsh-parse.h is
not in src; tokens are the NULL-terminated argument array, embedded as a
list). -/
structure Command where
  command : String
  tokens : List String
deriving DecidableEq, Repr

/-- A parsed pipeline (spec section 3): commands, optional input/output
redirection paths (the C++ `std::string` is empty when absent), and the
background flag. -/
structure Pipeline where
  commands : List Command
  input : String
  output : String
  background : Bool
deriving DecidableEq, Repr

structure STSHProcess where
  pid : Int
  command : Command
  state : STSHProcessState
deriving DecidableEq, Repr

structure STSHJob where
  num : Int
  gid : Int
  state : STSHJobState
  processes : List STSHProcess
deriving DecidableEq, Repr

structure STSHJobList where
  jobs : List STSHJob
deriving DecidableEq, Repr

/-! ## Job-table operations

Modelled from the spec (section 4.1): the headers stsh-job-list.h,
stsh-job.h and stsh-process.h are declared but their implementation is
not under src/. -/

/-- Modelled from the spec: `contains_job(num)`. -/
def STSHJobList.containsJob (jl : STSHJobList) (num : Int) : Bool :=
  jl.jobs.any (fun j => j.num == num)

/-- Modelled from the spec: a job contains a process with the given pid. -/
def STSHJob.containsProcess (j : STSHJob) (pid : Int) : Bool :=
  j.processes.any (fun pr => pr.pid == pid)

/-- Modelled from the spec: `contains_process(pid)` over the whole table. -/
def STSHJobList.containsProcess (jl : STSHJobList) (pid : Int) : Bool :=
  jl.jobs.any (fun j => j.containsProcess pid)

/-- Modelled from the spec: `job_by_num`; callers in src only use it after
`containsJob`, so the default is never observed there. -/
def STSHJobList.getJob (jl : STSHJobList) (num : Int) : STSHJob :=
  (jl.jobs.find? (fun j => j.num == num)).getD ⟨0, 0, .kBackground, []⟩

/-- Modelled from the spec: `job_by_pid`; callers in src only use it after
`containsProcess`. -/
def STSHJobList.getJobWithProcess (jl : STSHJobList) (pid : Int) : STSHJob :=
  (jl.jobs.find? (fun j => j.containsProcess pid)).getD ⟨0, 0, .kBackground, []⟩

/-- Modelled from the spec: set the state of the process with the given pid
inside one job (pids are unique across the table at stable points). -/
def STSHJob.setProcessState (j : STSHJob) (pid : Int) (st : STSHProcessState) : STSHJob :=
  { j with processes := j.processes.map (fun pr => if pr.pid == pid then { pr with state := st } else pr) }

def STSHJob.allTerminated (j : STSHJob) : Bool :=
  j.processes.all (fun pr => pr.state == .kTerminated)

/-- Modelled from the spec: `synchronize(job)` removes the job iff every one
of its processes is Terminated; the only place removal happens. -/
def STSHJobList.synchronize (jl : STSHJobList) (num : Int) : STSHJobList :=
  ⟨jl.jobs.filter (fun j => !(j.num == num && j.allTerminated))⟩

/-- Modelled from the spec: `set_job_state`. -/
def STSHJobList.setJobState (jl : STSHJobList) (num : Int) (st : STSHJobState) : STSHJobList :=
  ⟨jl.jobs.map (fun j => if j.num == num then { j with state := st } else j)⟩

/-- Modelled from the spec: `has_foreground()`. -/
def STSHJobList.hasForegroundJob (jl : STSHJobList) : Bool :=
  jl.jobs.any (fun j => j.state == .kForeground)

/-- Modelled from the spec (I3): the next job number is max(live) + 1 when
any job is live, else 1. -/
def STSHJobList.nextNum (jl : STSHJobList) : Int :=
  (jl.jobs.foldl (fun m j => max m j.num) 0) + 1

/-! ## Builtin handlers (src/stsh.cc:43-119)

OS effects are traced: `kills` records each `kill(target, sig)` call (the
target is `-gid` for a group kill), `tcset` the argument of a `tcsetpgrp`
on stdin, `waited` whether `waitForFg` was entered, and `threw` the
message of a thrown `STSHException` (which the dispatcher catches and
prints to stderr). A `tcsetpgrp` is modelled as failing exactly on a
non-positive process-group argument. -/

structure FgbgResult where
  kills : List (Int × Int)
  joblist : STSHJobList
  tcset : Option Int
  waited : Bool
  threw : Option String
deriving DecidableEq, Repr

/-- fgbgHandler (src/stsh.cc:43-72): shared handler for `fg` and `bg`.
Note the source sets the job's state to `kForeground` for both builtins
(line 62); only `fg` additionally transfers the terminal and waits. -/
def fgbgHandler (p : Pipeline) (builtin : String) (sig : Int) (jl : STSHJobList) : FgbgResult :=
  let token0 := (p.commands.getD 0 ⟨"", []⟩).tokens.get? 0
  let token1 := (p.commands.getD 0 ⟨"", []⟩).tokens.get? 1
  let t0 : Int := match token0 with | some s => atoi s | none => 0
  if t0 < 1 ∨ token1.isSome then
    ⟨[], jl, none, false, some ("Usage: " ++ builtin ++ " <jobid>.")⟩
  else if jl.containsJob t0 = false then
    ⟨[], jl, none, false, some (builtin ++ " " ++ toString t0 ++ ": No such job.")⟩
  else
    let job := jl.getJob t0
    let groupID := job.gid
    let jl' := jl.setJobState t0 .kForeground
    if builtin = "fg" then
      if groupID < 1 then
        ⟨[(-groupID, sig)], jl', some groupID, false,
         some "Failed to transfer STDIN control to foreground process."⟩
      else
        ⟨[(-groupID, sig)], jl', some groupID, true, none⟩
    else
      ⟨[(-groupID, sig)], jl', none, false, none⟩

structure SPHResult where
  kills : List (Int × Int)
  threw : Option String
deriving DecidableEq, Repr

/-- singleProcessHandler (src/stsh.cc:74-119): shared handler for `slay`,
`halt` and `cont`. One argument: the argument is a pid that must be in the
table. Two arguments: a job number and a 0-based index into the job's
process vector. -/
def singleProcessHandler (p : Pipeline) (builtin : String) (sig : Int) (jl : STSHJobList) : SPHResult :=
  let toks := (p.commands.getD 0 ⟨"", []⟩).tokens
  let token0 := toks.get? 0
  let token1 := toks.get? 1
  let token2 := toks.get? 2
  let t0 : Int := match token0 with | some s => atoi s | none => 0
  let t1 : Int := match token1 with | some s => atoi s | none => 0
  if t0 < 1 ∨ token2.isSome then
    ⟨[], some ("Usage: " ++ builtin ++ " <jobid> <index> | <pid>.")⟩
  else if token1 = none then
    if jl.containsProcess t0 then ⟨[(t0, sig)], none⟩
    else ⟨[], some ("No process with pid " ++ toString t0 ++ ".")⟩
  else if jl.containsJob t0 = false then
    ⟨[], some ("No job with id of " ++ toString t0 ++ ".")⟩
  else
    let job := jl.getJob t0
    let processes := job.processes
    if t1 < 0 ∨ (processes.length : Int) ≤ t1 then
      ⟨[], some ("Job " ++ toString t0 ++ " doesn't have a process at index " ++ toString t1 ++ ".")⟩
    else
      ⟨[((processes.getD t1.toNat ⟨0, ⟨"", []⟩, .kRunning⟩).pid, sig)], none⟩

/-- Outcome of the builtin dispatcher. `fgbg` and `single` carry the traced
effects of the handler; thrown STSHExceptions are caught by the dispatcher
(src/stsh.cc:140-173) and reported on stderr, so they appear in the
result's `threw` field rather than escaping. -/
inductive BuiltinOutcome where
  | notBuiltin
  | exited
  | fgbg (r : FgbgResult)
  | single (r : SPHResult)
  | printedJobs
deriving DecidableEq, Repr

/-- handleBuiltin (src/stsh.cc:128-179): dispatch on the first command's
name over {quit, exit, fg, bg, slay, halt, cont, jobs}. -/
def handleBuiltin (p : Pipeline) (jl : STSHJobList) : BuiltinOutcome :=
  let command := (p.commands.getD 0 ⟨"", []⟩).command
  if command = "quit" ∨ command = "exit" then .exited
  else if command = "fg" then .fgbg (fgbgHandler p "fg" SIGCONT jl)
  else if command = "bg" then .fgbg (fgbgHandler p "bg" SIGCONT jl)
  else if command = "slay" then .single (singleProcessHandler p "slay" SIGKILL jl)
  else if command = "halt" then .single (singleProcessHandler p "halt" SIGSTOP jl)
  else if command = "cont" then .single (singleProcessHandler p "cont" SIGCONT jl)
  else if command = "jobs" then .printedJobs
  else .notBuiltin

/-! ## Signal-side state update (src/stsh.cc:181-218) -/

/-- updateJobList (src/stsh.cc:181-188): if the pid is unknown to the table
the call returns at once; otherwise set the state of that pid's process in
its job and synchronize that job. -/
def updateJobList (jobList : STSHJobList) (pid : Int) (state : STSHProcessState) : STSHJobList :=
  if jobList.containsProcess pid then
    let job := jobList.getJobWithProcess pid
    let jl' : STSHJobList :=
      ⟨jobList.jobs.map (fun j => if j.num == job.num then j.setProcessState pid state else j)⟩
    jl'.synchronize job.num
  else jobList

/-- The four wait-status classes the SIGCHLD handler distinguishes
(WIFEXITED / WIFSIGNALED / WIFSTOPPED / WIFCONTINUED). -/
inductive WaitKind where
  | exited
  | signaled
  | stopped
  | continued
deriving DecidableEq, Repr

structure SigChildResult where
  joblist : STSHJobList
  tcsetCalls : Nat
deriving DecidableEq, Repr

/-- One iteration of sigChild's waitpid drain loop (src/stsh.cc:198-218):
exit/kill maps to kTerminated, stop to kStopped, continue to kRunning; after
each exit/kill or stop update the handler calls
`tcsetpgrp(STDIN_FILENO, getpid())` unconditionally. -/
def sigChildStep (acc : SigChildResult) (ev : Int × WaitKind) : SigChildResult :=
  match ev.2 with
  | .exited => ⟨updateJobList acc.joblist ev.1 .kTerminated, acc.tcsetCalls + 1⟩
  | .signaled => ⟨updateJobList acc.joblist ev.1 .kTerminated, acc.tcsetCalls + 1⟩
  | .stopped => ⟨updateJobList acc.joblist ev.1 .kStopped, acc.tcsetCalls + 1⟩
  | .continued => ⟨updateJobList acc.joblist ev.1 .kRunning, acc.tcsetCalls⟩

/-- sigChild (src/stsh.cc:198-218) over the list of (pid, status) pairs the
waitpid loop reaps in one handler invocation. -/
def sigChild (jl : STSHJobList) (events : List (Int × WaitKind)) : SigChildResult :=
  events.foldl sigChildStep ⟨jl, 0⟩

/-! ## The launcher: createJob (src/stsh.cc:261-417)

The parent side is embedded as a trace over supplied fork results
(`forks i` is what the i-th `fork()` call returns in the parent; the
source compares it against 0 only, so -1 from a failed fork takes the
parent branch). The child side of each stage is embedded separately
below. The `cout` prints for background jobs are not traced. -/

structure ParentTrace where
  pipe2Calls : Nat
  setpgids : List (Int × Int)
  tcset : Option Int
  threw : Option String
  waited : Bool
  closedFds : Nat
deriving DecidableEq, Repr

/-- Parent side of createJob (src/stsh.cc:261-417).

* Line 263-264: `int fds[(n-1)*2]; pipe2(fds, O_CLOEXEC);` — one pipe2
  call is made unconditionally, before any n = 1 check (for n = 1 it
  writes into a zero-length array).
* Line 265-269: addJob(kForeground), flipped to kBackground when
  `p.background`.
* Line 273-290: the first fork; any nonzero return (a pid or -1) takes
  the parent branch: `setpgid(pid0, pid0)`, append the process, and for a
  foreground job `tcsetpgrp(STDIN_FILENO, pid0)`, throwing
  STSHException on failure (which aborts the rest of createJob; the job
  with its single recorded process stays in the table).
* Line 335-362: middle stages fork after one more pipe2 each.
* Line 364-406: the last stage forks when n > 1.
* Line 409-411: the parent closes all (n-1)*2 pipe fds.
* Line 414-416: a foreground launch ends in waitForFg(). -/
def createJobParent (p : Pipeline) (forks : Nat → Int) (jl : STSHJobList) : STSHJobList × ParentTrace :=
  let n := p.commands.length
  let jstate := if p.background then STSHJobState.kBackground else STSHJobState.kForeground
  let num := jl.nextNum
  let pid0 := forks 0
  if pid0 = 0 then
    -- the child side of the first fork is embedded as childStage0
    (jl, ⟨1, [], none, none, false, 0⟩)
  else
    let job0 : STSHJob := ⟨num, pid0, jstate, [⟨pid0, p.commands.getD 0 ⟨"", []⟩, .kRunning⟩]⟩
    if p.background = false ∧ pid0 < 1 then
      (⟨jl.jobs ++ [job0]⟩,
       ⟨1, [(pid0, pid0)], some pid0,
        some "Failed to transfer STDIN control to foreground process.", false, 0⟩)
    else
      let midIdx := (List.range (n - 1)).drop 1
      let midProcs := midIdx.filterMap (fun i =>
        let q := forks i
        if q = 0 then none else some (STSHProcess.mk q (p.commands.getD i ⟨"", []⟩) .kRunning))
      let midPg := midIdx.filterMap (fun i =>
        let q := forks i
        if q = 0 then none else some (q, pid0))
      let lastProcs := if n > 1 then
          (let q := forks (n - 1)
           if q = 0 then [] else [STSHProcess.mk q (p.commands.getD (n - 1) ⟨"", []⟩) .kRunning])
        else []
      let lastPg := if n > 1 then
          (let q := forks (n - 1)
           if q = 0 then [] else [((forks (n - 1)), pid0)])
        else []
      let job : STSHJob := { job0 with processes := job0.processes ++ midProcs ++ lastProcs }
      (⟨jl.jobs ++ [job]⟩,
       ⟨1 + (n - 2), [(pid0, pid0)] ++ midPg ++ lastPg,
        if p.background then none else some pid0,
        none, !p.background, (n - 1) * 2⟩)

/-! ### Child side of each stage

`fs path` models whether the path exists (it decides `access(path, F_OK)`
and whether `open(path, O_RDONLY)` succeeds); `execOK` models whether
`execvp` finds the program and replaces the image. A `dup2` from a failed
open (descriptor -1) fails with EBADF and leaves the target descriptor
unchanged. When execvp returns, the child throws STSHException; main's
catch block (src/stsh.cc:438-441) prints `what()` to stderr and, because
`getpid() != stshpid`, calls `exit(0)` — so `stderrMsg`/`exitCode` record
that path. `exitCode = none` means the exec succeeded and the child became
the program. -/

inductive FdSrc where
  | inherited
  | file (path : String)
  | pipeRead (i : Nat)
  | pipeWrite (i : Nat)
deriving DecidableEq, Repr

structure OpenCall where
  path : String
  flags : Nat
  mode : Option Nat
deriving DecidableEq, Repr

structure ChildTrace where
  stdin : FdSrc
  stdout : FdSrc
  opens : List OpenCall
  execCalled : Bool
  stderrMsg : Option String
  exitCode : Option Nat
deriving DecidableEq, Repr

/-- Child side of the first fork (src/stsh.cc:291-332): redirect stdin from
`p.input` when present (the open's -1 on a missing file is not checked,
so the dup2 fails and stdin stays inherited); for n = 1 redirect stdout to
`p.output` when present (truncate an existing file via O_TRUNC|O_RDWR,
else create with O_CREAT|O_RDWR mode 0644), for n > 1 to the write end of
pipe 0; then execvp. -/
def childStage0 (p : Pipeline) (fs : String → Bool) (execOK : Bool) : ChildTrace :=
  let n := p.commands.length
  let stdinAfter :=
    if p.input ≠ "" then
      (if fs p.input then FdSrc.file p.input else FdSrc.inherited)
    else FdSrc.inherited
  let opensIn : List OpenCall := if p.input ≠ "" then [⟨p.input, O_RDONLY, none⟩] else []
  let stdoutAfter :=
    if n = 1 then
      (if p.output ≠ "" then FdSrc.file p.output else FdSrc.inherited)
    else FdSrc.pipeWrite 0
  let opensOut : List OpenCall :=
    if n = 1 ∧ p.output ≠ "" then
      (if fs p.output then [⟨p.output, O_TRUNC.lor O_RDWR, none⟩]
       else [⟨p.output, O_CREAT.lor O_RDWR, some 0o644⟩])
    else []
  if execOK then
    ⟨stdinAfter, stdoutAfter, opensIn ++ opensOut, true, none, none⟩
  else
    ⟨stdinAfter, stdoutAfter, opensIn ++ opensOut, true,
     some ((p.commands.getD 0 ⟨"", []⟩).command ++ ": Command not found."), some 0⟩

/-- Child side of a middle stage i, 1 ≤ i ≤ n-2 (src/stsh.cc:346-361):
stdout to the write end of pipe i (`fds[2i+1]`), stdin from the read end
of pipe i-1 (`fds[2(i-1)]`); then execvp. -/
def childStageMid (p : Pipeline) (i : Nat) (execOK : Bool) : ChildTrace :=
  if execOK then
    ⟨FdSrc.pipeRead (i - 1), FdSrc.pipeWrite i, [], true, none, none⟩
  else
    ⟨FdSrc.pipeRead (i - 1), FdSrc.pipeWrite i, [], true,
     some ((p.commands.getD i ⟨"", []⟩).command ++ ": Command not found."), some 0⟩

/-- Child side of the last stage when n > 1 (src/stsh.cc:376-405): stdin
from the read end of pipe n-2 (`fds[2n-4]`); stdout to `p.output` when
present, with the same open policy as stage 0; then execvp. -/
def childStageLast (p : Pipeline) (fs : String → Bool) (execOK : Bool) : ChildTrace :=
  let n := p.commands.length
  let stdoutAfter := if p.output ≠ "" then FdSrc.file p.output else FdSrc.inherited
  let opens : List OpenCall :=
    if p.output ≠ "" then
      (if fs p.output then [⟨p.output, O_TRUNC.lor O_RDWR, none⟩]
       else [⟨p.output, O_CREAT.lor O_RDWR, some 0o644⟩])
    else []
  if execOK then
    ⟨FdSrc.pipeRead (n - 2), stdoutAfter, opens, true, none, none⟩
  else
    ⟨FdSrc.pipeRead (n - 2), stdoutAfter, opens, true,
     some ((p.commands.getD (n - 1) ⟨"", []⟩).command ++ ": Command not found."), some 0⟩

/-! ## Concrete example tables and pipelines used by the theorems -/

/-- A table with one stopped background job, number 1, group 100. -/
def jlStopped : STSHJobList :=
  ⟨[⟨1, 100, .kBackground, [⟨100, ⟨"sleep", ["100"]⟩, .kStopped⟩]⟩]⟩

/-- A table with a running background job (number 1, group 100) and a
running foreground job (number 2, group 200). -/
def jlBgFg : STSHJobList :=
  ⟨[⟨1, 100, .kBackground, [⟨100, ⟨"sleep", ["100"]⟩, .kRunning⟩]⟩,
    ⟨2, 200, .kForeground, [⟨200, ⟨"cat", []⟩, .kRunning⟩]⟩]⟩

/-- A table with one background job, number 1, group 50, two processes. -/
def jlTwoProc : STSHJobList :=
  ⟨[⟨1, 50, .kBackground, [⟨50, ⟨"sleep", ["100"]⟩, .kRunning⟩,
                           ⟨51, ⟨"cat", []⟩, .kRunning⟩]⟩]⟩

/-- A table whose only job is number 1 with a single process of pid 1. -/
def jlPidOne : STSHJobList :=
  ⟨[⟨1, 1, .kBackground, [⟨1, ⟨"sleep", ["10"]⟩, .kRunning⟩]⟩]⟩

/-- A table with a single job holding one running process with pid 3. -/
def jlPidThree : STSHJobList :=
  ⟨[⟨1, 3, .kBackground, [⟨3, ⟨"sleep", ["10"]⟩, .kRunning⟩]⟩]⟩

def pNoSuchProg : Pipeline := ⟨[⟨"nosuchprog", []⟩], "", "", false⟩

def pSleepFg : Pipeline := ⟨[⟨"sleep", ["5"]⟩], "", "", false⟩

def pEchoHello : Pipeline := ⟨[⟨"echo", ["hello"]⟩], "", "", false⟩

def pCatMissing : Pipeline := ⟨[⟨"cat", []⟩], "missing.txt", "", false⟩

def pLsOut : Pipeline := ⟨[⟨"ls", []⟩], "", "out.txt", false⟩

def pCatWcOut : Pipeline := ⟨[⟨"cat", []⟩, ⟨"wc", ["-l"]⟩], "", "out.txt", false⟩

/-- A file system in which no path exists. -/
def fsNone : String → Bool := fun _ => false

/-! ## Theorems -/

/-- C1: the claim says `bg <num>` sends SIGCONT to the job's group, sets the
job's state to Background (not Foreground), and does not block the REPL.
The source does send `kill(-gid, SIGCONT)` and does not enter waitForFg for
`bg`, but line 62 sets the state to kForeground for `bg` as well: evaluated
on a table holding stopped job 1 with group 100, the builtin leaves the job
in the kForeground state. -/
theorem bg_sends_sigcont_but_sets_foreground :
    handleBuiltin ⟨[⟨"bg", ["1"]⟩], "", "", false⟩ jlStopped =
      .fgbg ⟨[(-100, SIGCONT)],
             ⟨[⟨1, 100, .kForeground, [⟨100, ⟨"sleep", ["100"]⟩, .kStopped⟩]⟩]⟩,
             none, false, none⟩ := by decide

/-- C3: the claim says the SIGCHLD handler returns the terminal to the shell
exactly when the foreground job has fully Terminated or fully Stopped, and
demotes a fully stopped foreground job to Background. In the source the
handler calls `tcsetpgrp(STDIN_FILENO, getpid())` after every exit and every
stop, whichever job the child belongs to, and never changes any job's
JobState: when background job 1's child (pid 100) exits while job 2 is
foreground and running, the terminal is still reclaimed; when foreground
job 2's child (pid 200) stops, the job keeps state kForeground. -/
theorem sigchild_reclaims_always_and_never_demotes :
    (sigChild jlBgFg [(100, .exited)]).tcsetCalls = 1 ∧
    (sigChild jlBgFg [(100, .exited)]).joblist =
      ⟨[⟨2, 200, .kForeground, [⟨200, ⟨"cat", []⟩, .kRunning⟩]⟩]⟩ ∧
    ((sigChild jlBgFg [(200, .stopped)]).joblist.getJob 2).state = .kForeground ∧
    ((sigChild jlBgFg [(200, .stopped)]).joblist.getJob 2).processes.map
        (fun pr => pr.state) = [.kStopped] ∧
    (sigChild jlBgFg [(200, .stopped)]).tcsetCalls = 1 := by decide

/-- C5: the claim says a one-command pipeline with no redirection creates no
pipes. The source calls `pipe2(fds, O_CLOEXEC)` unconditionally at
src/stsh.cc:264, before any check of n, so launching `echo hello` makes
exactly one pipe2 call (into the zero-length array `int fds[0]`). -/
theorem single_command_still_calls_pipe2 :
    (createJobParent pEchoHello (fun _ => 100) ⟨[]⟩).2.pipe2Calls = 1 := by decide

/-- C9: builtin numeric arguments go through atoi: "abc" parses to 0, which
fails the `t0 < 1` test and is reported as the usage error (not as an
unknown job or process), while "1x" parses to 1 and is accepted exactly as
"1" would be, in both fgbgHandler and singleProcessHandler. -/
theorem atoi_argument_parsing :
    atoi "abc" = 0 ∧ atoi "1x" = 1 ∧
    fgbgHandler ⟨[⟨"fg", ["abc"]⟩], "", "", false⟩ "fg" SIGCONT jlPidOne =
      ⟨[], jlPidOne, none, false, some "Usage: fg <jobid>."⟩ ∧
    fgbgHandler ⟨[⟨"bg", ["1x"]⟩], "", "", false⟩ "bg" SIGCONT jlPidOne =
      fgbgHandler ⟨[⟨"bg", ["1"]⟩], "", "", false⟩ "bg" SIGCONT jlPidOne ∧
    (fgbgHandler ⟨[⟨"bg", ["1x"]⟩], "", "", false⟩ "bg" SIGCONT jlPidOne).threw = none ∧
    singleProcessHandler ⟨[⟨"slay", ["abc"]⟩], "", "", false⟩ "slay" SIGKILL jlPidOne =
      ⟨[], some "Usage: slay <jobid> <index> | <pid>."⟩ ∧
    singleProcessHandler ⟨[⟨"slay", ["1x"]⟩], "", "", false⟩ "slay" SIGKILL jlPidOne =
      ⟨[(1, SIGKILL)], none⟩ := by decide

/-- C10: updateJobList is a no-op for a pid the table does not contain, for
any requested process state. -/
theorem updateJobList_unknown_pid_noop (jl : STSHJobList) (pid : Int)
    (st : STSHProcessState) (h : jl.containsProcess pid = false) :
    updateJobList jl pid st = jl := by
  unfold updateJobList
  simp [h]

theorem updateJobList_unknown_pid_noop_witness :
    jlPidThree.containsProcess 5 = false ∧
    updateJobList jlPidThree 5 .kTerminated = jlPidThree :=
  ⟨by decide, updateJobList_unknown_pid_noop jlPidThree 5 .kTerminated (by decide)⟩

/-- C2 counterexample: the claim says an exec-failure child exits with a
nonzero code, never 0. Evaluated on `nosuchprog`, the child does print the
diagnostic, but its exit status is 0: the STSHException reaches main's
catch, which prints to stderr and calls `exit(0)` (src/stsh.cc:440). -/
theorem exec_failure_exits_zero_cex :
    (childStage0 pNoSuchProg fsNone false).stderrMsg =
      some "nosuchprog: Command not found." ∧
    (childStage0 pNoSuchProg fsNone false).exitCode = some 0 := by decide

/-- C4 counterexample: the claim says a fork returning -1 is not treated as
a successful parent-side fork, the launcher fails with SpawnFailed, and no
orphaned job is left. In the source `fork()`'s result is only compared with
0, so -1 takes the parent branch: launching `sleep 5` under a failing fork
calls `setpgid(-1, -1)`, appends a process with pid -1 to the job, leaves
that job in the table, and raises no spawn error (the only thrown error is
the tcsetpgrp failure message). -/
theorem fork_failure_parent_branch_cex :
    ((createJobParent pSleepFg (fun _ => -1) ⟨[]⟩).1.jobs.map
        (fun j => j.processes.map (fun pr => pr.pid))) = [[-1]] ∧
    (createJobParent pSleepFg (fun _ => -1) ⟨[]⟩).2.setpgids = [(-1, -1)] ∧
    (createJobParent pSleepFg (fun _ => -1) ⟨[]⟩).2.threw =
      some "Failed to transfer STDIN control to foreground process." := by decide

/-- C6 counterexample: the claim says a missing `pipeline.input` file makes
the first-stage child fail the redirection and exit nonzero without
execing. Evaluated on `cat < missing.txt` with the file absent, the child
ignores the failed open (dup2 from -1 leaves stdin inherited), proceeds to
execvp, and does not exit: no Terminated transition arises from the
redirection. -/
theorem missing_input_cex :
    (childStage0 pCatMissing fsNone true).stdin = FdSrc.inherited ∧
    (childStage0 pCatMissing fsNone true).execCalled = true ∧
    (childStage0 pCatMissing fsNone true).exitCode = none := by decide

/-- C2 amended: for every stage whose execvp returns, the child emits
"<program>: Command not found." to standard error and exits with code 0
(the thrown STSHException reaches main's catch, which prints it and calls
`exit(0)` because the pid differs from the shell's). -/
theorem exec_failure_diagnostic_and_exit_zero (p : Pipeline) (fs : String → Bool) (i : Nat) :
    ((childStage0 p fs false).stderrMsg =
        some ((p.commands.getD 0 ⟨"", []⟩).command ++ ": Command not found.") ∧
     (childStage0 p fs false).exitCode = some 0) ∧
    ((childStageMid p i false).stderrMsg =
        some ((p.commands.getD i ⟨"", []⟩).command ++ ": Command not found.") ∧
     (childStageMid p i false).exitCode = some 0) ∧
    ((childStageLast p fs false).stderrMsg =
        some ((p.commands.getD (p.commands.length - 1) ⟨"", []⟩).command ++
          ": Command not found.") ∧
     (childStageLast p fs false).exitCode = some 0) := by
  unfold childStage0 childStageMid childStageLast
  simp

/-- C4 amended: pipe and fork failures are not detected by createJob: no
SpawnFailed exists; a fork returning -1 takes the parent branch, so for a
one-command pipeline the job is added to the table with a single process
of pid -1, and the only raised error is the tcsetpgrp failure in the
foreground case ("Failed to transfer STDIN control to foreground
process."); the job with its bogus process stays in the table either way. -/
theorem fork_failure_no_spawnfailed (cmd : Command) (jl : STSHJobList) (bg : Bool) :
    (createJobParent ⟨[cmd], "", "", bg⟩ (fun _ => -1) jl).1.jobs =
      jl.jobs ++ [⟨jl.nextNum, -1, (if bg then .kBackground else .kForeground),
                   [⟨-1, cmd, .kRunning⟩]⟩] ∧
    (createJobParent ⟨[cmd], "", "", bg⟩ (fun _ => -1) jl).2.threw =
      (if bg then none
       else some "Failed to transfer STDIN control to foreground process.") := by
  cases bg <;> simp [createJobParent]

/-- C6 amended: when `pipeline.input` names a missing file, the first-stage
child's open returns -1, the dup2 from it fails and is not checked, so the
child proceeds to execvp with the shell's inherited stdin; it exits (with
code 0, via main's catch) only if the exec itself also fails. -/
theorem missing_input_exec_with_inherited_stdin (p : Pipeline) (fs : String → Bool)
    (execOK : Bool) (hin : p.input ≠ "") (hmiss : fs p.input = false) :
    (childStage0 p fs execOK).stdin = FdSrc.inherited ∧
    (childStage0 p fs execOK).execCalled = true ∧
    (childStage0 p fs execOK).exitCode = (if execOK then none else some 0) := by
  unfold childStage0
  cases execOK <;> simp [hin, hmiss]

theorem missing_input_exec_with_inherited_stdin_witness :
    (pCatMissing.input ≠ "" ∧ fsNone pCatMissing.input = false) ∧
    ((childStage0 pCatMissing fsNone true).stdin = FdSrc.inherited ∧
     (childStage0 pCatMissing fsNone true).execCalled = true ∧
     (childStage0 pCatMissing fsNone true).exitCode = none) :=
  ⟨⟨by decide, by decide⟩,
   missing_input_exec_with_inherited_stdin pCatMissing fsNone true (by decide) (by decide)⟩

/-! ### Helper lemmas for the slay/halt/cont claim -/

theorem sph_one_found (p : Pipeline) (b : String) (sig : Int) (jl : STSHJobList) (s0 : String)
    (hp : (p.commands.getD 0 ⟨"", []⟩).tokens = [s0])
    (h0 : 1 ≤ atoi s0) (hc : jl.containsProcess (atoi s0) = true) :
    singleProcessHandler p b sig jl = ⟨[(atoi s0, sig)], none⟩ := by
  unfold singleProcessHandler
  rw [hp]
  simp [not_lt.mpr h0, hc]

theorem sph_one_missing (p : Pipeline) (b : String) (sig : Int) (jl : STSHJobList) (s0 : String)
    (hp : (p.commands.getD 0 ⟨"", []⟩).tokens = [s0])
    (h0 : 1 ≤ atoi s0) (hc : jl.containsProcess (atoi s0) = false) :
    singleProcessHandler p b sig jl =
      ⟨[], some ("No process with pid " ++ toString (atoi s0) ++ ".")⟩ := by
  unfold singleProcessHandler
  rw [hp]
  simp [not_lt.mpr h0, hc]

theorem sph_two_nojob (p : Pipeline) (b : String) (sig : Int) (jl : STSHJobList) (s0 s1 : String)
    (hp : (p.commands.getD 0 ⟨"", []⟩).tokens = [s0, s1])
    (h0 : 1 ≤ atoi s0) (hj : jl.containsJob (atoi s0) = false) :
    singleProcessHandler p b sig jl =
      ⟨[], some ("No job with id of " ++ toString (atoi s0) ++ ".")⟩ := by
  unfold singleProcessHandler
  rw [hp]
  simp [not_lt.mpr h0, hj]

theorem sph_two_badindex (p : Pipeline) (b : String) (sig : Int) (jl : STSHJobList)
    (s0 s1 : String)
    (hp : (p.commands.getD 0 ⟨"", []⟩).tokens = [s0, s1])
    (h0 : 1 ≤ atoi s0) (hj : jl.containsJob (atoi s0) = true)
    (hix : atoi s1 < 0 ∨ ((jl.getJob (atoi s0)).processes.length : Int) ≤ atoi s1) :
    singleProcessHandler p b sig jl =
      ⟨[], some ("Job " ++ toString (atoi s0) ++ " doesn't have a process at index " ++
        toString (atoi s1) ++ ".")⟩ := by
  unfold singleProcessHandler
  rw [hp]
  simp [not_lt.mpr h0, hj, hix]

theorem sph_two_ok (p : Pipeline) (b : String) (sig : Int) (jl : STSHJobList) (s0 s1 : String)
    (hp : (p.commands.getD 0 ⟨"", []⟩).tokens = [s0, s1])
    (h0 : 1 ≤ atoi s0) (hj : jl.containsJob (atoi s0) = true)
    (h1 : 0 ≤ atoi s1) (h2 : atoi s1 < ((jl.getJob (atoi s0)).processes.length : Int)) :
    singleProcessHandler p b sig jl =
      ⟨[(((jl.getJob (atoi s0)).processes.getD (atoi s1).toNat
          ⟨0, ⟨"", []⟩, .kRunning⟩).pid, sig)], none⟩ := by
  unfold singleProcessHandler
  rw [hp]
  simp [not_lt.mpr h0, hj, not_lt.mpr h1, not_le.mpr h2]

/-- C7: target selection and signal choice of `slay`, `halt` and `cont`.
With one (positive-integer) argument the argument is a pid that must be in
the table, signalled directly, with error "No process with pid <pid>."
otherwise; with two arguments the first is a job number (error "No job with
id of <num>." if absent) and the second a 0-based index into the job's
process vector (error "Job <num> doesn't have a process at index <ix>." if
out of range), and the signal goes to the process at that index. The
dispatcher sends SIGKILL for slay, SIGSTOP for halt, SIGCONT for cont. -/
theorem slay_halt_cont_target_selection (jl : STSHJobList) (name : String) (sig : Int)
    (s0 s1 : String)
    (hname : (name = "slay" ∧ sig = SIGKILL) ∨ (name = "halt" ∧ sig = SIGSTOP) ∨
             (name = "cont" ∧ sig = SIGCONT))
    (h0 : 1 ≤ atoi s0) :
    (jl.containsProcess (atoi s0) = true →
      handleBuiltin ⟨[⟨name, [s0]⟩], "", "", false⟩ jl =
        .single ⟨[(atoi s0, sig)], none⟩) ∧
    (jl.containsProcess (atoi s0) = false →
      handleBuiltin ⟨[⟨name, [s0]⟩], "", "", false⟩ jl =
        .single ⟨[], some ("No process with pid " ++ toString (atoi s0) ++ ".")⟩) ∧
    (jl.containsJob (atoi s0) = false →
      handleBuiltin ⟨[⟨name, [s0, s1]⟩], "", "", false⟩ jl =
        .single ⟨[], some ("No job with id of " ++ toString (atoi s0) ++ ".")⟩) ∧
    (jl.containsJob (atoi s0) = true →
      ((atoi s1 < 0 ∨ ((jl.getJob (atoi s0)).processes.length : Int) ≤ atoi s1 →
        handleBuiltin ⟨[⟨name, [s0, s1]⟩], "", "", false⟩ jl =
          .single ⟨[], some ("Job " ++ toString (atoi s0) ++
            " doesn't have a process at index " ++ toString (atoi s1) ++ ".")⟩) ∧
       (0 ≤ atoi s1 → atoi s1 < ((jl.getJob (atoi s0)).processes.length : Int) →
        handleBuiltin ⟨[⟨name, [s0, s1]⟩], "", "", false⟩ jl =
          .single ⟨[(((jl.getJob (atoi s0)).processes.getD (atoi s1).toNat
              ⟨0, ⟨"", []⟩, .kRunning⟩).pid, sig)], none⟩))) := by
  have hd1 : handleBuiltin ⟨[⟨name, [s0]⟩], "", "", false⟩ jl =
      .single (singleProcessHandler ⟨[⟨name, [s0]⟩], "", "", false⟩ name sig jl) := by
    rcases hname with ⟨hn, hs⟩ | ⟨hn, hs⟩ | ⟨hn, hs⟩ <;> subst hn <;> subst hs <;>
      simp [handleBuiltin]
  have hd2 : handleBuiltin ⟨[⟨name, [s0, s1]⟩], "", "", false⟩ jl =
      .single (singleProcessHandler ⟨[⟨name, [s0, s1]⟩], "", "", false⟩ name sig jl) := by
    rcases hname with ⟨hn, hs⟩ | ⟨hn, hs⟩ | ⟨hn, hs⟩ <;> subst hn <;> subst hs <;>
      simp [handleBuiltin]
  refine ⟨fun hc => ?_, fun hc => ?_, fun hj => ?_, fun hj => ⟨fun hix => ?_, fun h1 h2 => ?_⟩⟩
  · rw [hd1, sph_one_found ⟨[⟨name, [s0]⟩], "", "", false⟩ name sig jl s0 rfl h0 hc]
  · rw [hd1, sph_one_missing ⟨[⟨name, [s0]⟩], "", "", false⟩ name sig jl s0 rfl h0 hc]
  · rw [hd2, sph_two_nojob ⟨[⟨name, [s0, s1]⟩], "", "", false⟩ name sig jl s0 s1 rfl h0 hj]
  · rw [hd2, sph_two_badindex ⟨[⟨name, [s0, s1]⟩], "", "", false⟩ name sig jl s0 s1 rfl h0 hj hix]
  · rw [hd2, sph_two_ok ⟨[⟨name, [s0, s1]⟩], "", "", false⟩ name sig jl s0 s1 rfl h0 hj h1 h2]

theorem slay_halt_cont_target_selection_witness :
    (1 ≤ atoi "1" ∧ jlTwoProc.containsJob (atoi "1") = true ∧ 0 ≤ atoi "0" ∧
      atoi "0" < ((jlTwoProc.getJob (atoi "1")).processes.length : Int)) ∧
    handleBuiltin ⟨[⟨"slay", ["1", "0"]⟩], "", "", false⟩ jlTwoProc =
      .single ⟨[(((jlTwoProc.getJob (atoi "1")).processes.getD (atoi "0").toNat
          ⟨0, ⟨"", []⟩, .kRunning⟩).pid, SIGKILL)], none⟩ :=
  ⟨⟨by decide, by decide, by decide, by decide⟩,
   ((slay_halt_cont_target_selection jlTwoProc "slay" SIGKILL "1" "0"
      (Or.inl ⟨rfl, rfl⟩) (by decide)).2.2.2 (by decide)).2 (by decide) (by decide)⟩

/-- C8: for every pipeline with an output redirection path, the stage that
writes it (the only stage when n = 1, the last stage when n > 1) opens the
file with O_TRUNC|O_RDWR when the path exists and with O_CREAT|O_RDWR and
mode 0644 otherwise — read/write mode in both cases — and the opened
descriptor replaces that stage's stdout. -/
theorem output_redirection_open_policy (p : Pipeline) (fs : String → Bool) (execOK : Bool)
    (hout : p.output ≠ "") :
    (p.commands.length = 1 →
      (childStage0 p fs execOK).stdout = FdSrc.file p.output ∧
      (childStage0 p fs execOK).opens =
        (if p.input ≠ "" then [⟨p.input, O_RDONLY, none⟩] else []) ++
        [if fs p.output then ⟨p.output, O_TRUNC.lor O_RDWR, none⟩
         else ⟨p.output, O_CREAT.lor O_RDWR, some 0o644⟩]) ∧
    (2 ≤ p.commands.length →
      (childStageLast p fs execOK).stdout = FdSrc.file p.output ∧
      (childStageLast p fs execOK).opens =
        [if fs p.output then ⟨p.output, O_TRUNC.lor O_RDWR, none⟩
         else ⟨p.output, O_CREAT.lor O_RDWR, some 0o644⟩]) := by
  constructor
  · intro h1
    unfold childStage0
    cases hfs : fs p.output <;> cases execOK <;> simp [hout, h1, hfs]
  · intro _
    unfold childStageLast
    cases hfs : fs p.output <;> cases execOK <;> simp [hout, hfs]

theorem output_redirection_open_policy_witness :
    (pCatWcOut.output ≠ "" ∧ 2 ≤ pCatWcOut.commands.length) ∧
    ((childStageLast pCatWcOut fsNone true).stdout = FdSrc.file pCatWcOut.output ∧
     (childStageLast pCatWcOut fsNone true).opens =
       [⟨"out.txt", O_CREAT.lor O_RDWR, some 0o644⟩]) :=
  ⟨⟨by decide, by decide⟩,
   (output_redirection_open_policy pCatWcOut fsNone true (by decide)).2 (by decide)⟩

end Stsh
